import Mathlib

/-!
Shallow embedding of `LUFA/Platform/UC3/ClockManagement.h`, the clock
management driver for the AVR32 UC3 microcontrollers.

The driver manipulates memory-mapped registers of the power-management
(`AVR32_PM`) and flash (`AVR32_FLASHC`) peripherals.  We model the registers
the driver writes as a record `HWState`, and each driver routine as a state
transformer.  Routines whose C body can hit undefined behaviour (division by
zero in a divider computation, an out-of-bounds index into the two-element
PLL register array) return `Option`, with `none` standing for the undefined
execution.  The busy-wait loops in the source only read the `POSCSR` status
register and write nothing, so they do not appear in the state transformer
(their termination depends on the hardware, not on the register state the
driver mutates).

Bit-field and register-layout constants (`AVR32_PM_MCCTRL_OSC0EN_OFFSET`,
the two-bit `mcsel` field sitting in the low bits of the `MCCTRL` word, the
register being 32 bits wide) come from the vendor device header
`<avr32/io.h>`, which is a platform dependency of the repository, not part
of it.
-/

/-- Oscillator control register `OSCCTRLn`: the two fields the driver writes. -/
structure OscCtrl where
  mode : Nat
  startup : Nat
deriving DecidableEq

/-- PLL control register `PLL[n]`: the four fields the driver writes. -/
structure PllReg where
  pllosc : Nat
  pllmul : Nat
  plldiv : Nat
  pllen : Bool
deriving DecidableEq

/-- Generic clock control register `GCCTRL[n]`: the five fields the driver
writes. -/
structure GcCtrl where
  pllsel : Nat
  oscsel : Nat
  diven : Bool
  div : Nat
  cen : Bool
deriving DecidableEq

/-- The hardware registers touched by the driver.  `mcctrl` is the raw
`MCCTRL` word: its low two bits are the `mcsel` clock-selector field and bit
`AVR32_PM_MCCTRL_OSC0EN_OFFSET + n` is oscillator channel `n`'s enable bit.
`fws` is the flash controller's wait-state bit `AVR32_FLASHC.FCR.fws`.  The
device has exactly two PLL channels, so `pll` is indexed by `Fin 2`; the
number of generic clock channels is device-dependent, so `gcctrl` is indexed
by `Nat`. -/
structure HWState where
  oscctrl0 : OscCtrl
  oscctrl1 : OscCtrl
  mcctrl : Nat
  pll : Fin 2 → PllReg
  gcctrl : Nat → GcCtrl
  fws : Bool

/-- Bit position of the `OSC0EN` enable bit inside `MCCTRL` (from
`<avr32/io.h>`: `mcsel` occupies bits 0-1, `OSC0EN` is bit 2, `OSC1EN`
bit 3). -/
def AVR32_PM_MCCTRL_OSC0EN_OFFSET : Nat := 2

/-- Enum value `CLOCK_SRC_SLOW_CLK` of `System_ClockSource_t`. -/
def CLOCK_SRC_SLOW_CLK : Nat := 0

/-- Enum value `CLOCK_SRC_OSC0` of `System_ClockSource_t`. -/
def CLOCK_SRC_OSC0 : Nat := 1

/-- Enum value `CLOCK_SRC_OSC1` of `System_ClockSource_t`. -/
def CLOCK_SRC_OSC1 : Nat := 2

/-- Enum value `CLOCK_SRC_PLL0` of `System_ClockSource_t`. -/
def CLOCK_SRC_PLL0 : Nat := 3

/-- Enum value `CLOCK_SRC_PLL1` of `System_ClockSource_t`. -/
def CLOCK_SRC_PLL1 : Nat := 4

/-- C unsigned division `a / b`: undefined behaviour (`none`) when `b = 0`. -/
def cdiv (a b : Nat) : Option Nat :=
  if b = 0 then none else some (a / b)

/-- Write to the PLL control register `AVR32_PM.PLL[ch]` through a field
update `f`.  The C array has exactly two elements, so an index outside
`{0,1}` is an out-of-bounds access, i.e. undefined behaviour (`none`). -/
def writePLL (ch : Nat) (f : PllReg → PllReg) (s : HWState) : Option HWState :=
  if h : ch < 2 then
    some { s with pll := Function.update s.pll ⟨ch, h⟩ (f (s.pll ⟨ch, h⟩)) }
  else
    none

/-- Write to the generic clock control register `AVR32_PM.GCCTRL[ch]`
through a field update `f`. -/
def writeGC (ch : Nat) (f : GcCtrl → GcCtrl) (s : HWState) : HWState :=
  { s with gcctrl := Function.update s.gcctrl ch (f (s.gcctrl ch)) }

/-- Write the two-bit `mcsel` field of `MCCTRL`, preserving the other bits
of the word. -/
def setMcsel (v : Nat) (s : HWState) : HWState :=
  { s with mcctrl := s.mcctrl / 4 * 4 + v % 4 }

/-- The `mcsel` (CPU clock selector) field of `MCCTRL`: its low two bits. -/
def mcsel (s : HWState) : Nat :=
  s.mcctrl % 4

/-- `AVR32CLK_StartExternalOscillator` (ClockManagement.h lines 133-155).
The C function is declared `void` but its body executes `return false` /
`return true` and its doc comment promises a boolean result; we model the
boolean the body attempts to return.  The busy-wait on
`POSCSR.OSC0RDY+Channel` only reads status and is omitted. -/
def AVR32CLK_StartExternalOscillator (Channel ty startup : Nat) (s : HWState) :
    Bool × HWState :=
  match Channel with
  | 0 =>
    let s1 := { s with oscctrl0 := { startup := startup, mode := ty } }
    (true, { s1 with
      mcctrl := s1.mcctrl ||| (1 <<< (AVR32_PM_MCCTRL_OSC0EN_OFFSET + Channel)) })
  | 1 =>
    let s1 := { s with oscctrl1 := { startup := startup, mode := ty } }
    (true, { s1 with
      mcctrl := s1.mcctrl ||| (1 <<< (AVR32_PM_MCCTRL_OSC0EN_OFFSET + Channel)) })
  | _ => (false, s)

/-- `AVR32CLK_StopExternalOscillator` (ClockManagement.h lines 162-165):
`AVR32_PM.mcctrl &= ~(1 << (AVR32_PM_MCCTRL_OSC0EN_OFFSET + Channel))`,
with the 32-bit complement written out on `Nat`.  There is no channel
validation and no return value. -/
def AVR32CLK_StopExternalOscillator (Channel : Nat) (s : HWState) : HWState :=
  { s with mcctrl :=
      s.mcctrl &&& ((2 ^ 32 - 1) ^^^ (1 <<< (AVR32_PM_MCCTRL_OSC0EN_OFFSET + Channel))) }

/-- Common tail of `AVR32CLK_StartPLL` after the source switch has written
`pllosc` (ClockManagement.h lines 197-202).  The C line
`pllmul = (Frequency / SourceFreq) ? (((Frequency / SourceFreq) - 1) / 2) : 0`
evaluates the division first (undefined when `SourceFreq = 0`), then writes
the multiplier; `plldiv` and `pllen` follow. -/
def startPLLTail (Channel SourceFreq Frequency : Nat) (s : HWState) :
    Option (Bool × HWState) :=
  (cdiv Frequency SourceFreq).bind fun q =>
    (writePLL Channel (fun r => { r with pllmul := if q = 0 then 0 else (q - 1) / 2 }) s).bind
      fun s1 =>
        (writePLL Channel (fun r => { r with plldiv := 0 }) s1).bind fun s2 =>
          (writePLL Channel (fun r => { r with pllen := true }) s2).map fun s3 => (true, s3)

/-- `AVR32CLK_StartPLL` (ClockManagement.h lines 180-203).  The source
switch writes `pllosc` (or returns `false` for an invalid source without
touching any register); the rest is `startPLLTail`.  The busy-wait on
`POSCSR.LOCK0+Channel` only reads status and is omitted. -/
def AVR32CLK_StartPLL (Channel Source SourceFreq Frequency : Nat) (s : HWState) :
    Option (Bool × HWState) :=
  if Source = CLOCK_SRC_OSC0 then
    (writePLL Channel (fun r => { r with pllosc := 0 }) s).bind
      (startPLLTail Channel SourceFreq Frequency)
  else if Source = CLOCK_SRC_OSC1 then
    (writePLL Channel (fun r => { r with pllosc := 1 }) s).bind
      (startPLLTail Channel SourceFreq Frequency)
  else
    some (false, s)

/-- `AVR32CLK_StopPLL` (ClockManagement.h lines 210-213): clears `pllen`
only; no channel validation. -/
def AVR32CLK_StopPLL (Channel : Nat) (s : HWState) : Option HWState :=
  writePLL Channel (fun r => { r with pllen := false }) s

/-- The `switch (Source)` of `AVR32CLK_StartGenericClock` (ClockManagement.h
lines 233-253): writes `pllsel` then `oscsel` of `GCCTRL[Channel]` for the
four valid sources, `none` for the `default: return false` case. -/
def gcSelect (Channel Source : Nat) (s : HWState) : Option HWState :=
  if Source = CLOCK_SRC_OSC0 then
    some (writeGC Channel (fun r => { r with oscsel := 0 })
      (writeGC Channel (fun r => { r with pllsel := 0 }) s))
  else if Source = CLOCK_SRC_OSC1 then
    some (writeGC Channel (fun r => { r with oscsel := 1 })
      (writeGC Channel (fun r => { r with pllsel := 0 }) s))
  else if Source = CLOCK_SRC_PLL0 then
    some (writeGC Channel (fun r => { r with oscsel := 0 })
      (writeGC Channel (fun r => { r with pllsel := 1 }) s))
  else if Source = CLOCK_SRC_PLL1 then
    some (writeGC Channel (fun r => { r with oscsel := 1 })
      (writeGC Channel (fun r => { r with pllsel := 1 }) s))
  else
    none

/-- `AVR32CLK_StartGenericClock` (ClockManagement.h lines 228-263).  The
source switch writes the selector bits; only then is the frequency check
`if (SourceFreq < Frequency) return false` made.  On the success path the
driver writes `diven`, then `div` (whose computation
`((SourceFreq / Frequency) - 1) / 2` is undefined when `Frequency = 0`),
then `cen`. -/
def AVR32CLK_StartGenericClock (Channel Source SourceFreq Frequency : Nat)
    (s : HWState) : Option (Bool × HWState) :=
  match gcSelect Channel Source s with
  | none => some (false, s)
  | some s0 =>
    if SourceFreq < Frequency then
      some (false, s0)
    else
      let s1 := writeGC Channel
        (fun r => { r with diven := if Frequency < SourceFreq then true else false }) s0
      (cdiv SourceFreq Frequency).bind fun q =>
        some (true, writeGC Channel (fun r => { r with cen := true })
          (writeGC Channel (fun r => { r with div := (q - 1) / 2 }) s1))

/-- `AVR32CLK_StopGenericClock` (ClockManagement.h lines 270-273): clears
`cen` only; no channel validation, no return value. -/
def AVR32CLK_StopGenericClock (Channel : Nat) (s : HWState) : HWState :=
  writeGC Channel (fun r => { r with cen := false }) s

/-- `AVR32CLK_SetCPUClockSource` (ClockManagement.h lines 287-308): writes
the flash wait-state bit from `SourceFreq` first, then switches on `Source`
to write `mcsel`, returning `false` (after the wait-state write) for any
source other than the slow clock, oscillator 0 or PLL 0. -/
def AVR32CLK_SetCPUClockSource (Source SourceFreq : Nat) (s : HWState) :
    Bool × HWState :=
  let s0 := { s with fws := if 30000000 < SourceFreq then true else false }
  if Source = CLOCK_SRC_SLOW_CLK then
    (true, setMcsel 0 s0)
  else if Source = CLOCK_SRC_OSC0 then
    (true, setMcsel 1 s0)
  else if Source = CLOCK_SRC_PLL0 then
    (true, setMcsel 2 s0)
  else
    (false, s0)

/-- A concrete power-on-style register state used to instantiate theorems on
concrete inputs. -/
def initState : HWState :=
  { oscctrl0 := { mode := 0, startup := 0 }
    oscctrl1 := { mode := 0, startup := 0 }
    mcctrl := 0
    pll := fun _ => { pllosc := 0, pllmul := 0, plldiv := 0, pllen := false }
    gcctrl := fun _ => { pllsel := 0, oscsel := 0, diven := false, div := 0, cen := false }
    fws := false }

/-- Value the `StartGenericClock` source switch writes into `pllsel`:
`1` for the two PLL sources, `0` for the two oscillator sources. -/
def gcPllSel (Source : Nat) : Nat :=
  if Source = CLOCK_SRC_PLL0 ∨ Source = CLOCK_SRC_PLL1 then 1 else 0

/-- Value the `StartGenericClock` source switch writes into `oscsel`:
`1` for oscillator 1 and PLL 1, `0` for oscillator 0 and PLL 0. -/
def gcOscSel (Source : Nat) : Nat :=
  if Source = CLOCK_SRC_OSC1 ∨ Source = CLOCK_SRC_PLL1 then 1 else 0

/-! Projection lemmas for the register-write helpers. -/

theorem writeGC_gcctrl_same (ch : Nat) (f : GcCtrl → GcCtrl) (s : HWState) :
    (writeGC ch f s).gcctrl ch = f (s.gcctrl ch) := by
  simp [writeGC]

theorem writeGC_gcctrl_other (ch i : Nat) (f : GcCtrl → GcCtrl) (s : HWState)
    (h : i ≠ ch) : (writeGC ch f s).gcctrl i = s.gcctrl i := by
  simp [writeGC, Function.update_noteq h]

theorem writePLL_some (ch : Nat) (hch : ch < 2) (f : PllReg → PllReg) (s : HWState) :
    writePLL ch f s =
      some { s with pll := Function.update s.pll ⟨ch, hch⟩ (f (s.pll ⟨ch, hch⟩)) } := by
  simp [writePLL, hch]

theorem writePLL_none (ch : Nat) (hch : 2 ≤ ch) (f : PllReg → PllReg) (s : HWState) :
    writePLL ch f s = none := by
  simp [writePLL, Nat.not_lt.mpr hch]

theorem testBit_ones32 (i : Nat) : Nat.testBit 4294967295 i = decide (i < 32) := by
  rw [show (4294967295 : Nat) = 2 ^ 32 - 1 from rfl, Nat.testBit_two_pow_sub_one]

/-- C1: for every `0 < SourceFreq` and every valid PLL source (oscillator 0
or oscillator 1), `AVR32CLK_StartPLL` succeeds and the multiplier it writes
equals `(Frequency / SourceFreq - 1) / 2` with truncating unsigned division
when `SourceFreq ≤ Frequency`, and equals `0` when `Frequency < SourceFreq`. -/
theorem startPLL_multiplier_spec (Channel Source SourceFreq Frequency : Nat)
    (s : HWState) (hch : Channel < 2)
    (hsrc : Source = CLOCK_SRC_OSC0 ∨ Source = CLOCK_SRC_OSC1)
    (hpos : 0 < SourceFreq) :
    (AVR32CLK_StartPLL Channel Source SourceFreq Frequency s).map
        (fun r => (r.1, (r.2.pll ⟨Channel, hch⟩).pllmul)) =
      some (true, if SourceFreq ≤ Frequency then (Frequency / SourceFreq - 1) / 2 else 0) := by
  have hS : SourceFreq ≠ 0 := hpos.ne'
  have harith : (if Frequency / SourceFreq = 0 then 0 else (Frequency / SourceFreq - 1) / 2)
      = if SourceFreq ≤ Frequency then (Frequency / SourceFreq - 1) / 2 else 0 := by
    by_cases hle : SourceFreq ≤ Frequency
    · have hq : 0 < Frequency / SourceFreq := Nat.div_pos hle hpos
      simp [hle, hq.ne']
    · have hq : Frequency / SourceFreq = 0 :=
        Nat.div_eq_of_lt (Nat.lt_of_not_le hle)
      simp [hle, hq]
  rcases hsrc with h | h <;> subst h <;>
    simp [AVR32CLK_StartPLL, startPLLTail, writePLL, cdiv, hch, hS,
      CLOCK_SRC_OSC0, CLOCK_SRC_OSC1, harith]

/-- C1 witness: the spec's own example, `SourceFreq = 12 MHz`,
`Frequency = 48 MHz` on channel 0 from oscillator 0 gives multiplier
`(4 - 1) / 2 = 1`. -/
theorem startPLL_multiplier_spec_witness :
    (AVR32CLK_StartPLL 0 CLOCK_SRC_OSC0 12000000 48000000 initState).map
        (fun r => (r.1, (r.2.pll ⟨0, Nat.zero_lt_two⟩).pllmul)) = some (true, 1) :=
  (startPLL_multiplier_spec 0 CLOCK_SRC_OSC0 12000000 48000000 initState
    Nat.zero_lt_two (Or.inl rfl) (by decide)).trans (by decide)

/-- C10: `AVR32CLK_StartPLL` performs no validation of its channel
parameter: with a valid source and nonzero source frequency it writes all
four fields (`pllosc`, `pllmul`, `plldiv`, `pllen`) of `PLL[Channel]` and
returns `true` whenever `Channel < 2`, while for `2 ≤ Channel` its first
register write already indexes outside the two-element PLL array (undefined
behaviour, modelled as `none`); there is no `InvalidChannel` failure
return in this operation. -/
theorem startPLL_channel_unchecked_spec (Channel Source SourceFreq Frequency : Nat)
    (s : HWState)
    (hsrc : Source = CLOCK_SRC_OSC0 ∨ Source = CLOCK_SRC_OSC1)
    (hpos : 0 < SourceFreq) :
    (∀ hch : Channel < 2,
      (AVR32CLK_StartPLL Channel Source SourceFreq Frequency s).map
          (fun r => (r.1, r.2.pll ⟨Channel, hch⟩)) =
        some (true,
          { pllosc := if Source = CLOCK_SRC_OSC0 then 0 else 1
            pllmul := if SourceFreq ≤ Frequency then (Frequency / SourceFreq - 1) / 2 else 0
            plldiv := 0
            pllen := true })) ∧
    (2 ≤ Channel → AVR32CLK_StartPLL Channel Source SourceFreq Frequency s = none) := by
  have hS : SourceFreq ≠ 0 := hpos.ne'
  have harith : (if Frequency / SourceFreq = 0 then 0 else (Frequency / SourceFreq - 1) / 2)
      = if SourceFreq ≤ Frequency then (Frequency / SourceFreq - 1) / 2 else 0 := by
    by_cases hle : SourceFreq ≤ Frequency
    · have hq : 0 < Frequency / SourceFreq := Nat.div_pos hle hpos
      simp [hle, hq.ne']
    · have hq : Frequency / SourceFreq = 0 :=
        Nat.div_eq_of_lt (Nat.lt_of_not_le hle)
      simp [hle, hq]
  constructor
  · intro hch
    rcases hsrc with h | h <;> subst h <;>
      simp [AVR32CLK_StartPLL, startPLLTail, writePLL, cdiv, hch, hS,
        CLOCK_SRC_OSC0, CLOCK_SRC_OSC1, harith]
  · intro hout
    rcases hsrc with h | h <;> subst h <;>
      simp [AVR32CLK_StartPLL, startPLLTail, writePLL, cdiv, Nat.not_lt.mpr hout,
        CLOCK_SRC_OSC0, CLOCK_SRC_OSC1]

/-- C10 witness: on channel 0 the call writes all four PLL fields; on
channel 2 the same call is an out-of-bounds access. -/
theorem startPLL_channel_unchecked_spec_witness :
    ((AVR32CLK_StartPLL 0 CLOCK_SRC_OSC0 12000000 48000000 initState).map
        (fun r => (r.1, r.2.pll ⟨0, Nat.zero_lt_two⟩)) =
      some (true, { pllosc := 0, pllmul := 1, plldiv := 0, pllen := true })) ∧
    AVR32CLK_StartPLL 2 CLOCK_SRC_OSC0 12000000 48000000 initState = none := by
  constructor
  · exact ((startPLL_channel_unchecked_spec 0 CLOCK_SRC_OSC0 12000000 48000000 initState
      (Or.inl rfl) (by decide)).1 Nat.zero_lt_two).trans (by decide)
  · exact (startPLL_channel_unchecked_spec 2 CLOCK_SRC_OSC0 12000000 48000000 initState
      (Or.inl rfl) (by decide)).2 (by decide)

/-- C2 counterexample: `AVR32CLK_StartGenericClock` on channel 0 with source
oscillator 1 and `SourceFreq = 1 < 2 = Frequency` does fail (returns
`false`), but it is not true that no selector field is modified: the
channel's `oscsel` selector changes from `0` to `1`, because the source
switch writes the selector bits before the frequency validation runs. -/
theorem startGenericClock_invalidFreq_writes_selector :
    (AVR32CLK_StartGenericClock 0 CLOCK_SRC_OSC1 1 2 initState).map
        (fun r => (r.1, (r.2.gcctrl 0).oscsel)) = some (false, 1) ∧
    (initState.gcctrl 0).oscsel = 0 := by
  decide

/-- C2 (amended): for every channel, every valid generic-clock source and
`SourceFreq < Frequency`, `AVR32CLK_StartGenericClock` fails (returns
`false`) and writes no divider or enable field — the post state is exactly
the input state with the channel's `pllsel` and `oscsel` selector bits
written according to the source (a write that precedes the frequency
validation); the channel's `diven`, `div` and `cen` fields, every other
generic-clock channel, and all other registers are unmodified. -/
theorem startGenericClock_invalidFreq_spec (Channel Source SourceFreq Frequency : Nat)
    (s : HWState)
    (hsrc : Source = CLOCK_SRC_OSC0 ∨ Source = CLOCK_SRC_OSC1 ∨
      Source = CLOCK_SRC_PLL0 ∨ Source = CLOCK_SRC_PLL1)
    (hlt : SourceFreq < Frequency) :
    AVR32CLK_StartGenericClock Channel Source SourceFreq Frequency s =
      some (false,
        writeGC Channel (fun r => { r with oscsel := gcOscSel Source })
          (writeGC Channel (fun r => { r with pllsel := gcPllSel Source }) s)) ∧
    (AVR32CLK_StartGenericClock Channel Source SourceFreq Frequency s).map
        (fun r => ((r.2.gcctrl Channel).diven, (r.2.gcctrl Channel).div,
          (r.2.gcctrl Channel).cen)) =
      some ((s.gcctrl Channel).diven, (s.gcctrl Channel).div, (s.gcctrl Channel).cen) ∧
    (∀ i, i ≠ Channel →
      (AVR32CLK_StartGenericClock Channel Source SourceFreq Frequency s).map
          (fun r => r.2.gcctrl i) = some (s.gcctrl i)) ∧
    (AVR32CLK_StartGenericClock Channel Source SourceFreq Frequency s).map
        (fun r => (r.2.oscctrl0, r.2.oscctrl1, r.2.mcctrl, r.2.pll, r.2.fws)) =
      some (s.oscctrl0, s.oscctrl1, s.mcctrl, s.pll, s.fws) := by
  have key : AVR32CLK_StartGenericClock Channel Source SourceFreq Frequency s =
      some (false,
        writeGC Channel (fun r => { r with oscsel := gcOscSel Source })
          (writeGC Channel (fun r => { r with pllsel := gcPllSel Source }) s)) := by
    rcases hsrc with h | h | h | h <;> subst h <;>
      simp [AVR32CLK_StartGenericClock, gcSelect, hlt, gcPllSel, gcOscSel,
        CLOCK_SRC_OSC0, CLOCK_SRC_OSC1, CLOCK_SRC_PLL0, CLOCK_SRC_PLL1]
  refine ⟨key, ?_, fun i hi => ?_, ?_⟩
  · rw [key]
    simp [writeGC, Function.update_same]
  · rw [key]
    simp [writeGC_gcctrl_other _ _ _ _ hi]
  · rw [key]
    simp [writeGC]

/-- C2 witness: channel 0, source PLL 1, `SourceFreq = 12 MHz`,
`Frequency = 24 MHz`: the divider and enable fields of channel 0 and the
whole of channel 1 are untouched by the failing call. -/
theorem startGenericClock_invalidFreq_spec_witness :
    (AVR32CLK_StartGenericClock 0 CLOCK_SRC_PLL1 12000000 24000000 initState).map
        (fun r => ((r.2.gcctrl 0).diven, (r.2.gcctrl 0).div, (r.2.gcctrl 0).cen)) =
      some ((initState.gcctrl 0).diven, (initState.gcctrl 0).div,
        (initState.gcctrl 0).cen) ∧
    (AVR32CLK_StartGenericClock 0 CLOCK_SRC_PLL1 12000000 24000000 initState).map
        (fun r => r.2.gcctrl 1) = some (initState.gcctrl 1) :=
  ⟨(startGenericClock_invalidFreq_spec 0 CLOCK_SRC_PLL1 12000000 24000000 initState
      (Or.inr (Or.inr (Or.inr rfl))) (by decide)).2.1,
   (startGenericClock_invalidFreq_spec 0 CLOCK_SRC_PLL1 12000000 24000000 initState
      (Or.inr (Or.inr (Or.inr rfl))) (by decide)).2.2.1 1 (by decide)⟩

/-- C7 counterexample: the claim quantifies over every frequency pair with
`SourceFreq = Frequency`, but at `SourceFreq = Frequency = 0` the call does
not succeed: the frequency validation `SourceFreq < Frequency` does not
reject the pair and the divider computation `SourceFreq / Frequency`
divides by zero (undefined behaviour, modelled as `none`). -/
theorem startGenericClock_equalFreq_zero_div :
    AVR32CLK_StartGenericClock 0 CLOCK_SRC_OSC0 0 0 initState = none := rfl

/-- C7 (amended): for every channel, every valid generic-clock source and
every positive `Frequency`, `AVR32CLK_StartGenericClock` with
`SourceFreq = Frequency` succeeds, sets the channel's `diven` to `false`,
writes `0` to its `div` field, and sets `cen`. -/
theorem startGenericClock_equalFreq_spec (Channel Source Frequency : Nat) (s : HWState)
    (hsrc : Source = CLOCK_SRC_OSC0 ∨ Source = CLOCK_SRC_OSC1 ∨
      Source = CLOCK_SRC_PLL0 ∨ Source = CLOCK_SRC_PLL1)
    (hpos : 0 < Frequency) :
    (AVR32CLK_StartGenericClock Channel Source Frequency Frequency s).map
        (fun r => (r.1, (r.2.gcctrl Channel).diven, (r.2.gcctrl Channel).div,
          (r.2.gcctrl Channel).cen)) =
      some (true, false, 0, true) := by
  rcases hsrc with h | h | h | h <;> subst h <;>
    simp [AVR32CLK_StartGenericClock, gcSelect, cdiv, hpos.ne', Nat.lt_irrefl,
      Nat.div_self hpos, writeGC, Function.update_same, CLOCK_SRC_OSC0,
      CLOCK_SRC_OSC1, CLOCK_SRC_PLL0, CLOCK_SRC_PLL1]

/-- C7 witness: channel 0, source oscillator 0, both frequencies 48 MHz. -/
theorem startGenericClock_equalFreq_spec_witness :
    (AVR32CLK_StartGenericClock 0 CLOCK_SRC_OSC0 48000000 48000000 initState).map
        (fun r => (r.1, (r.2.gcctrl 0).diven, (r.2.gcctrl 0).div,
          (r.2.gcctrl 0).cen)) = some (true, false, 0, true) :=
  startGenericClock_equalFreq_spec 0 CLOCK_SRC_OSC0 48000000 initState
    (Or.inl rfl) (by decide)

/-- C9: `AVR32CLK_StartGenericClock` never checks `Frequency = 0`: for every
channel, every valid source and every `SourceFreq`, the call with
`Frequency = 0` passes the `SourceFreq < Frequency` validation and reaches
the division by zero in the divider computation (undefined behaviour,
`none`); conversely, under the precondition `0 < Frequency` the call is
free of division by zero (it never evaluates to `none`). -/
theorem startGenericClock_div_by_zero_spec (Channel Source SourceFreq : Nat)
    (s : HWState)
    (hsrc : Source = CLOCK_SRC_OSC0 ∨ Source = CLOCK_SRC_OSC1 ∨
      Source = CLOCK_SRC_PLL0 ∨ Source = CLOCK_SRC_PLL1) :
    AVR32CLK_StartGenericClock Channel Source SourceFreq 0 s = none ∧
    (∀ Frequency, 0 < Frequency →
      AVR32CLK_StartGenericClock Channel Source SourceFreq Frequency s ≠ none) := by
  constructor
  · rcases hsrc with h | h | h | h <;> subst h <;>
      simp [AVR32CLK_StartGenericClock, gcSelect, cdiv, CLOCK_SRC_OSC0,
        CLOCK_SRC_OSC1, CLOCK_SRC_PLL0, CLOCK_SRC_PLL1]
  · intro Frequency hF
    rcases hsrc with h | h | h | h <;> subst h <;>
      · by_cases hlt : SourceFreq < Frequency <;>
          simp [AVR32CLK_StartGenericClock, gcSelect, cdiv, hlt, hF.ne',
            CLOCK_SRC_OSC0, CLOCK_SRC_OSC1, CLOCK_SRC_PLL0, CLOCK_SRC_PLL1]

/-- C9 witness: channel 0, source oscillator 0, `SourceFreq = 12 MHz`:
`Frequency = 0` divides by zero while `Frequency = 5` does not. -/
theorem startGenericClock_div_by_zero_spec_witness :
    AVR32CLK_StartGenericClock 0 CLOCK_SRC_OSC0 12000000 0 initState = none ∧
    AVR32CLK_StartGenericClock 0 CLOCK_SRC_OSC0 12000000 5 initState ≠ none :=
  ⟨(startGenericClock_div_by_zero_spec 0 CLOCK_SRC_OSC0 12000000 initState
      (Or.inl rfl)).1,
   (startGenericClock_div_by_zero_spec 0 CLOCK_SRC_OSC0 12000000 initState
      (Or.inl rfl)).2 5 (by decide)⟩

/-- C3: in the model of `AVR32CLK_StartExternalOscillator` — whose C body
attempts to `return false` / `return true` even though the declaration says
`void`, so we model the boolean the body computes — every channel index
outside `{0,1}` yields `false` with no register modified, while channels 0
and 1 write exactly the supplied mode and startup fields of that channel's
control register and set the channel's `MCCTRL` enable bit, touching
nothing else. -/
theorem startExternalOscillator_spec (ty st : Nat) (s : HWState) :
    (∀ Channel, 2 ≤ Channel →
      AVR32CLK_StartExternalOscillator Channel ty st s = (false, s)) ∧
    AVR32CLK_StartExternalOscillator 0 ty st s =
      (true, { s with oscctrl0 := { mode := ty, startup := st }
                      mcctrl := s.mcctrl |||
                        (1 <<< (AVR32_PM_MCCTRL_OSC0EN_OFFSET + 0)) }) ∧
    AVR32CLK_StartExternalOscillator 1 ty st s =
      (true, { s with oscctrl1 := { mode := ty, startup := st }
                      mcctrl := s.mcctrl |||
                        (1 <<< (AVR32_PM_MCCTRL_OSC0EN_OFFSET + 1)) }) := by
  refine ⟨fun Channel h => ?_, rfl, rfl⟩
  obtain ⟨n, rfl⟩ : ∃ n, Channel = n + 2 := ⟨Channel - 2, by omega⟩
  rfl

/-- C3 witness: channel 2 fails with no write; channel 0 writes mode 3,
startup 4 and sets enable bit 2 of `MCCTRL`. -/
theorem startExternalOscillator_spec_witness :
    AVR32CLK_StartExternalOscillator 2 3 4 initState = (false, initState) ∧
    AVR32CLK_StartExternalOscillator 0 3 4 initState =
      (true, { initState with oscctrl0 := { mode := 3, startup := 4 }, mcctrl := 4 }) :=
  ⟨(startExternalOscillator_spec 3 4 initState).1 2 (by decide),
   (startExternalOscillator_spec 3 4 initState).2.1⟩

/-- C4: for every source outside `{SlowInternalClock, Oscillator0, PLL0}`,
`AVR32CLK_SetCPUClockSource` returns `false` and the clock-selector field
`mcsel` is unchanged, but the flash wait-state bit has already been written
from `SourceFreq` before the source validation and is not rolled back. -/
theorem setCPUClockSource_invalidSource_spec (Source SourceFreq : Nat) (s : HWState)
    (h0 : Source ≠ CLOCK_SRC_SLOW_CLK) (h1 : Source ≠ CLOCK_SRC_OSC0)
    (h3 : Source ≠ CLOCK_SRC_PLL0) :
    AVR32CLK_SetCPUClockSource Source SourceFreq s =
      (false, { s with fws := if 30000000 < SourceFreq then true else false }) ∧
    mcsel (AVR32CLK_SetCPUClockSource Source SourceFreq s).2 = mcsel s ∧
    (AVR32CLK_SetCPUClockSource Source SourceFreq s).2.fws =
      (if 30000000 < SourceFreq then true else false) := by
  have key : AVR32CLK_SetCPUClockSource Source SourceFreq s =
      (false, { s with fws := if 30000000 < SourceFreq then true else false }) := by
    simp [AVR32CLK_SetCPUClockSource, h0, h1, h3]
  exact ⟨key, by rw [key]; rfl, by rw [key]⟩

/-- C4 witness: source PLL 1 at 48 MHz fails, leaves `mcsel` alone and has
already set the wait-state bit. -/
theorem setCPUClockSource_invalidSource_spec_witness :
    AVR32CLK_SetCPUClockSource CLOCK_SRC_PLL1 48000000 initState =
      (false, { initState with fws := true }) ∧
    mcsel (AVR32CLK_SetCPUClockSource CLOCK_SRC_PLL1 48000000 initState).2 =
      mcsel initState :=
  ⟨(setCPUClockSource_invalidSource_spec CLOCK_SRC_PLL1 48000000 initState
      (by decide) (by decide) (by decide)).1,
   (setCPUClockSource_invalidSource_spec CLOCK_SRC_PLL1 48000000 initState
      (by decide) (by decide) (by decide)).2.1⟩

/-- C5: on every call to `AVR32CLK_SetCPUClockSource` the flash wait-state
bit is written `true` iff `SourceFreq` strictly exceeds 30000000; in
particular 30000001 gives `true` and 30000000 gives `false`. -/
theorem setCPUClockSource_waitState_spec :
    (∀ Source SourceFreq (s : HWState),
      (AVR32CLK_SetCPUClockSource Source SourceFreq s).2.fws = true ↔
        30000000 < SourceFreq) ∧
    (AVR32CLK_SetCPUClockSource CLOCK_SRC_PLL0 30000001 initState).2.fws = true ∧
    (AVR32CLK_SetCPUClockSource CLOCK_SRC_PLL0 30000000 initState).2.fws = false := by
  refine ⟨fun Source SourceFreq s => ?_, by decide, by decide⟩
  simp only [AVR32CLK_SetCPUClockSource, setMcsel]
  split_ifs <;> simp <;> omega

/-- C6 counterexample: `AVR32CLK_StopExternalOscillator` with the
out-of-range channel 2 does not leave the hardware state unmodified (and
returns no failure indicator): starting from `MCCTRL = 16` it clears bit
`AVR32_PM_MCCTRL_OSC0EN_OFFSET + 2 = 4`, changing the word to 0. -/
theorem stopExternalOscillator_no_validation :
    (AVR32CLK_StopExternalOscillator 2 { initState with mcctrl := 16 }).mcctrl = 0 ∧
    ({ initState with mcctrl := 16 } : HWState).mcctrl = 16 := by
  decide

/-- C6 (amended): `AVR32CLK_StopExternalOscillator` performs no channel
validation and signals no failure: for every channel it clears exactly bit
`AVR32_PM_MCCTRL_OSC0EN_OFFSET + Channel` of the 32-bit `MCCTRL` word,
leaving every other bit of the word and every other register unchanged,
with no blocking and no readiness check; for a valid channel (0 or 1) the
cleared bit is precisely that channel's enable bit. -/
theorem stopExternalOscillator_spec (Channel : Nat) (s : HWState)
    (hk : AVR32_PM_MCCTRL_OSC0EN_OFFSET + Channel < 32) :
    (AVR32CLK_StopExternalOscillator Channel s).mcctrl.testBit
        (AVR32_PM_MCCTRL_OSC0EN_OFFSET + Channel) = false ∧
    (∀ i, i < 32 → i ≠ AVR32_PM_MCCTRL_OSC0EN_OFFSET + Channel →
      (AVR32CLK_StopExternalOscillator Channel s).mcctrl.testBit i =
        s.mcctrl.testBit i) ∧
    (AVR32CLK_StopExternalOscillator Channel s).oscctrl0 = s.oscctrl0 ∧
    (AVR32CLK_StopExternalOscillator Channel s).oscctrl1 = s.oscctrl1 ∧
    (AVR32CLK_StopExternalOscillator Channel s).pll = s.pll ∧
    (AVR32CLK_StopExternalOscillator Channel s).gcctrl = s.gcctrl ∧
    (AVR32CLK_StopExternalOscillator Channel s).fws = s.fws := by
  refine ⟨?_, fun i h32 hneq => ?_, rfl, rfl, rfl, rfl, rfl⟩
  · simp [AVR32CLK_StopExternalOscillator, Nat.testBit_land, Nat.testBit_xor,
      Nat.one_shiftLeft, Nat.testBit_two_pow_self, testBit_ones32, hk]
  · simp [AVR32CLK_StopExternalOscillator, Nat.testBit_land, Nat.testBit_xor,
      Nat.one_shiftLeft, Nat.testBit_two_pow_of_ne (Ne.symm hneq),
      testBit_ones32, h32]

/-- C6 witness: stopping channel 0 with `MCCTRL = 12` (enable bits 2 and 3
set) clears bit 2 and keeps bit 3. -/
theorem stopExternalOscillator_spec_witness :
    (AVR32CLK_StopExternalOscillator 0 { initState with mcctrl := 12 }).mcctrl.testBit 2
        = false ∧
    (AVR32CLK_StopExternalOscillator 0 { initState with mcctrl := 12 }).mcctrl.testBit 3
        = ({ initState with mcctrl := 12 } : HWState).mcctrl.testBit 3 :=
  ⟨(stopExternalOscillator_spec 0 { initState with mcctrl := 12 } (by decide)).1,
   (stopExternalOscillator_spec 0 { initState with mcctrl := 12 } (by decide)).2.1
     3 (by decide) (by decide)⟩

/-- C8: `AVR32CLK_StopGenericClock` clears only the channel's enable bit
`cen`: the channel's selector fields (`pllsel`, `oscsel`) and divider
fields (`diven`, `div`), every other generic clock channel and every other
register keep exactly their last configured values. -/
theorem stopGenericClock_frame_spec (Channel : Nat) (s : HWState) :
    ((AVR32CLK_StopGenericClock Channel s).gcctrl Channel).cen = false ∧
    ((AVR32CLK_StopGenericClock Channel s).gcctrl Channel).pllsel =
      (s.gcctrl Channel).pllsel ∧
    ((AVR32CLK_StopGenericClock Channel s).gcctrl Channel).oscsel =
      (s.gcctrl Channel).oscsel ∧
    ((AVR32CLK_StopGenericClock Channel s).gcctrl Channel).diven =
      (s.gcctrl Channel).diven ∧
    ((AVR32CLK_StopGenericClock Channel s).gcctrl Channel).div =
      (s.gcctrl Channel).div ∧
    (∀ i, i ≠ Channel →
      (AVR32CLK_StopGenericClock Channel s).gcctrl i = s.gcctrl i) ∧
    (AVR32CLK_StopGenericClock Channel s).oscctrl0 = s.oscctrl0 ∧
    (AVR32CLK_StopGenericClock Channel s).oscctrl1 = s.oscctrl1 ∧
    (AVR32CLK_StopGenericClock Channel s).mcctrl = s.mcctrl ∧
    (AVR32CLK_StopGenericClock Channel s).pll = s.pll ∧
    (AVR32CLK_StopGenericClock Channel s).fws = s.fws :=
  ⟨by simp [AVR32CLK_StopGenericClock, writeGC],
   by simp [AVR32CLK_StopGenericClock, writeGC],
   by simp [AVR32CLK_StopGenericClock, writeGC],
   by simp [AVR32CLK_StopGenericClock, writeGC],
   by simp [AVR32CLK_StopGenericClock, writeGC],
   fun i hi => by simp [AVR32CLK_StopGenericClock, writeGC_gcctrl_other _ _ _ _ hi],
   rfl, rfl, rfl, rfl, rfl⟩

/-- C8 witness: stopping channel 0 of a configured state clears its `cen`
and leaves channel 3 untouched. -/
theorem stopGenericClock_frame_spec_witness :
    ((AVR32CLK_StopGenericClock 0 initState).gcctrl 0).cen = false ∧
    (AVR32CLK_StopGenericClock 0 initState).gcctrl 3 = initState.gcctrl 3 :=
  ⟨(stopGenericClock_frame_spec 0 initState).1,
   (stopGenericClock_frame_spec 0 initState).2.2.2.2.2.1 3 (by decide)⟩
